import Mathlib

/-!
Shallow embedding of the Multimodal RAG System (AWS Bedrock + FAISS).

The visible source is the CLI surface (`main.py`) and the interactive
Streamlit surface (`app.py`).  The core components they call
(`MultimodalRAG`, `FAISSVectorStore`, the ingestion functions and the
Bedrock embedding/generation backends) are not part of the visible
source; those are modelled from the specification and marked as such in
their doc comments.  Embedding vectors are modelled as `List Int`
(the numeric payload is irrelevant to every property proved here; only
lengths, alignment and ordering matter).
-/

/-- Error taxonomy of spec section 7. -/
inductive RagError where
  | emptyQuery
  | indexNotFound
  | embeddingFailure
  | generationFailure
  | dimensionMismatch
  | ingestBackendError
deriving DecidableEq, Repr

/-- Human-readable message, mirroring Python `str(e)` on the typed errors. -/
def errorMessage : RagError → String
  | .emptyQuery => "EmptyQuery"
  | .indexNotFound => "IndexNotFound"
  | .embeddingFailure => "EmbeddingFailure"
  | .generationFailure => "GenerationFailure"
  | .dimensionMismatch => "DimensionMismatch"
  | .ingestBackendError => "IngestBackendError"

/-- A call that reaches a remote backend (embedding or generation).
Query evaluation returns the list of such calls it performed, so that
"no call reaches the backends" is expressible. -/
inductive BackendCall where
  | embedTextCall (text : String)
  | embedImageCall (path : String)
  | generateCall (question : String)
deriving DecidableEq, Repr

/-- Metadata record stored 1:1 with each vector (spec section 3). -/
structure SourceRecord where
  type : String
  source : String
  content : String
deriving DecidableEq, Repr

/-- The Vector Index Store: an ordered collection of vectors paired
positionally with an equal-length collection of records (spec section 3). -/
structure VectorStore where
  dimension : Nat
  vectors : List (List Int)
  records : List SourceRecord
deriving DecidableEq, Repr

/-- `count` of the store (spec section 4.2). -/
def VectorStore.count (s : VectorStore) : Nat := s.records.length

/-- A store created empty at a given dimension. -/
def emptyStore (dim : Nat) : VectorStore := ⟨dim, [], []⟩

/-- Modelled from the spec: `FAISSVectorStore.add` (section 4.2) —
appends one vector/record pair, fails with `DimensionMismatch` when the
vector length differs from the store dimension.  The store class itself
is not in the visible source. -/
def addPair (store : VectorStore) (v : List Int) (r : SourceRecord) :
    Except RagError VectorStore :=
  if v.length = store.dimension then
    .ok { store with vectors := store.vectors ++ [v], records := store.records ++ [r] }
  else
    .error .dimensionMismatch

/-- Sequential appender used by `add_batch`: adds the pairs one at a
time, stopping at the first failure. -/
def addBatchGo : VectorStore → List (List Int × SourceRecord) → Except RagError VectorStore
  | cur, [] => .ok cur
  | cur, (v, r) :: rest =>
    match addPair cur v r with
    | .ok next => addBatchGo next rest
    | .error e => .error e

/-- Modelled from the spec: `FAISSVectorStore.add_batch` (section 4.2) —
appends a batch of pairs atomically: on a mid-batch failure the caller
observes the original, unmodified store together with the error.  The
store class itself is not in the visible source. -/
def add_batch (store : VectorStore) (pairs : List (List Int × SourceRecord)) :
    VectorStore × Option RagError :=
  match addBatchGo store pairs with
  | .ok s => (s, none)
  | .error e => (store, some e)

/-- Inner product of two vectors (spec section 4.2 similarity convention). -/
def innerProduct (v w : List Int) : Int :=
  (v.zip w).foldl (fun acc p => acc + p.1 * p.2) 0

/-- Insert a scored record into a list kept in descending-score order. -/
def insertByScore (x : Int × SourceRecord) :
    List (Int × SourceRecord) → List (Int × SourceRecord)
  | [] => [x]
  | y :: ys => if y.1 ≤ x.1 then x :: y :: ys else y :: insertByScore x ys

/-- Sort scored records by descending score. -/
def sortByScore (l : List (Int × SourceRecord)) : List (Int × SourceRecord) :=
  l.foldr insertByScore []

/-- Modelled from the spec: `FAISSVectorStore.search` (section 4.2) —
scores every stored vector against the query by inner product and
returns the records of the `k` best, best first.  The store class
itself is not in the visible source. -/
def searchStore (store : VectorStore) (q : List Int) (k : Nat) : List SourceRecord :=
  ((sortByScore ((store.vectors.zip store.records).map
      (fun p => (innerProduct q p.1, p.2)))).take k).map (fun p => p.2)

/-- The Embedder capability interface (spec sections 4.1 and 9):
fallible text/image embedding into a shared space of a fixed dimension. -/
structure Embedder where
  dimension : Nat
  embedText : String → Except RagError (List Int)
  embedImage : String → Except RagError (List Int)

/-- The Generator capability interface (spec sections 4.4 and 9):
question and assembled context to answer text, fallible. -/
structure Generator where
  generate : String → String → Except RagError String

/-- The default prompt substituted for a missing question
(`main.py` line 51, `app.py` line 77). -/
def defaultPrompt : String := "What is in this image?"

/-- Python truthiness fallback `s or d` on strings: the empty string is
falsy, so it is replaced by the fallback. -/
def pyOr (s d : String) : String := if s = "" then d else s

/-- Python truthiness fallback `o or d` on an optional string: `None`
and the empty string both yield the fallback. -/
def pyOrOpt (o : Option String) (d : String) : String := pyOr (o.getD "") d

/-- Bounded context assembly (spec section 4.4 step 5): each retrieved
record's content with its source citation. -/
def assembleContext (docs : List SourceRecord) : String :=
  String.intercalate "\n\n" (docs.map (fun d => d.content ++ " [" ++ d.source ++ "]"))

/-- Modelled from the spec: `MultimodalRAG.query` (section 4.4; the
`MultimodalRAG` class is not in the visible source).  Requires at least
one of question/image (else `EmptyQuery`, before any backend call);
embeds the image when an image is present, otherwise the text; searches
the store; generates from the question-or-default plus assembled
context.  Returns the result together with the trace of backend calls
performed. -/
def ragQuery (emb : Embedder) (gen : Generator) (store : VectorStore)
    (question : Option String) (queryImagePath : Option String) (topK : Nat) :
    Except RagError (String × List SourceRecord) × List BackendCall :=
  match question, queryImagePath with
  | none, none => (.error .emptyQuery, [])
  | q?, i? =>
    let embedStep : Except RagError (List Int) × List BackendCall :=
      match i? with
      | some img => (emb.embedImage img, [.embedImageCall img])
      | none =>
        let t := q?.getD ""
        (emb.embedText t, [.embedTextCall t])
    match embedStep with
    | (.error e, calls) => (.error e, calls)
    | (.ok qvec, calls) =>
      let docs := searchStore store qvec topK
      let genQ := q?.getD defaultPrompt
      match gen.generate genQ (assembleContext docs) with
      | .error e => (.error e, calls ++ [.generateCall genQ])
      | .ok answer => (.ok (answer, docs), calls ++ [.generateCall genQ])

/-- Modelled from the spec: `FAISSVectorStore.load` — returns the
persisted store when one exists, otherwise leaves the store empty.
Durable storage is modelled as an optional persisted store. -/
def storeLoad (dim : Nat) (persisted : Option VectorStore) : VectorStore :=
  persisted.getD (emptyStore dim)

/-- Modelled from the spec: `MultimodalRAG.load_index` (section 4.4) —
attempts to load the store from durable storage and returns whether an
index was found, together with the resulting store. -/
def load_index (dim : Nat) (persisted : Option VectorStore) : Bool × VectorStore :=
  match persisted with
  | none => (false, emptyStore dim)
  | some s => (true, s)

/-- Raw-content environment for ingestion: a document path resolves to
its text chunks (or `none` for an unreadable file, which is skipped),
an image path resolves to its bytes (or `none`, skipped). -/
structure IngestEnv where
  readChunks : String → Option (List String)
  readImage : String → Option String

/-- Modelled from the spec: the per-chunk loop of `ingest_documents`
(section 4.3) — embed each chunk and pair it with a `text` record; an
embedding-backend outage aborts the batch, any other per-item failure
skips the item. -/
def embedChunks (emb : Embedder) (src : String) :
    List String → Except RagError (List (List Int × SourceRecord))
  | [] => .ok []
  | c :: rest =>
    match emb.embedText c with
    | .ok v => do
      let tail ← embedChunks emb src rest
      .ok ((v, ⟨"text", src, c⟩) :: tail)
    | .error .ingestBackendError => .error .ingestBackendError
    | .error _ => embedChunks emb src rest

/-- Modelled from the spec: gather the vector/record pairs of a list of
document paths (section 4.3); unreadable files are skipped. -/
def gatherDocPairs (env : IngestEnv) (emb : Embedder) :
    List String → Except RagError (List (List Int × SourceRecord))
  | [] => .ok []
  | p :: rest => do
    let here ←
      match env.readChunks p with
      | none => (.ok [] : Except RagError (List (List Int × SourceRecord)))
      | some chunks => embedChunks emb p chunks
    let tail ← gatherDocPairs env emb rest
    .ok (here ++ tail)

/-- Modelled from the spec: gather the vector/record pairs of a list of
image paths (section 4.3); the record content of an image is empty. -/
def gatherImagePairs (env : IngestEnv) (emb : Embedder) :
    List String → Except RagError (List (List Int × SourceRecord))
  | [] => .ok []
  | p :: rest =>
    match env.readImage p with
    | none => gatherImagePairs env emb rest
    | some bytes =>
      match emb.embedImage bytes with
      | .ok v => do
        let tail ← gatherImagePairs env emb rest
        .ok ((v, ⟨"image", p, ""⟩) :: tail)
      | .error .ingestBackendError => .error .ingestBackendError
      | .error _ => gatherImagePairs env emb rest

/-- Append gathered pairs to the store, keeping vectors and records
positionally aligned. -/
def appendPairs (store : VectorStore) (pairs : List (List Int × SourceRecord)) : VectorStore :=
  { store with
    vectors := store.vectors ++ pairs.map (fun p => p.1)
    records := store.records ++ pairs.map (fun p => p.2) }

/-- Modelled from the spec: `ingest_documents` (section 4.3) — reads the
given paths and/or a directory, embeds the chunks and appends them to
the store, returning the new store and the number of chunks added. -/
def ingest_documents (env : IngestEnv) (emb : Embedder) (store : VectorStore)
    (paths : Option (List String)) (directory : Option (List String)) :
    Except RagError (VectorStore × Nat) :=
  (gatherDocPairs env emb (paths.getD [] ++ directory.getD [])).map
    (fun ps => (appendPairs store ps, ps.length))

/-- Modelled from the spec: `ingest_images` (section 4.3). -/
def ingest_images (env : IngestEnv) (emb : Embedder) (store : VectorStore)
    (paths : Option (List String)) (directory : Option (List String)) :
    Except RagError (VectorStore × Nat) :=
  (gatherImagePairs env emb (paths.getD [] ++ directory.getD [])).map
    (fun ps => (appendPairs store ps, ps.length))

/-- Arguments of the `ingest` subcommand (`main.py` lines 82-84); an
absent argparse list is modelled as the empty list (both are falsy in
the Python conditions that consume them). -/
structure IngestArgs where
  all : Bool
  documents : List String
  images : List String
deriving DecidableEq, Repr

/-- `cmd_ingest` (`main.py` lines 13-41): loads the persisted store
first, then ingests documents and/or images into it, returning the
final store with the two counts. -/
def cmd_ingest (env : IngestEnv) (emb : Embedder) (persisted : Option VectorStore)
    (args : IngestArgs) (documentsDir imagesDir : List String) :
    Except RagError (VectorStore × Nat × Nat) :=
  match (if args.documents ≠ [] ∨ args.all = true then
      ingest_documents env emb (storeLoad emb.dimension persisted)
        (if args.documents = [] then none else some args.documents)
        (if args.all then some documentsDir else none)
    else (.ok (storeLoad emb.dimension persisted, 0) :
      Except RagError (VectorStore × Nat))) with
  | .error e => .error e
  | .ok (store1, docCount) =>
    match (if args.images ≠ [] ∨ args.all = true then
        ingest_images env emb store1
          (if args.images = [] then none else some args.images)
          (if args.all then some imagesDir else none)
      else (.ok (store1, 0) : Except RagError (VectorStore × Nat))) with
    | .error e => .error e
    | .ok (store2, imgCount) => .ok (store2, docCount, imgCount)

/-- The labelled source list rendered by the interactive surface
(`app.py` lines 87-88): `enumerate(docs, 1)` gives the 1-based position,
and the label printed is that position plus one. -/
def appSourceEntries (docs : List SourceRecord) : List (Nat × SourceRecord) :=
  (List.enumFrom 1 docs).map (fun p => (p.1 + 1, p.2))

/-- The labelled source list printed by the command surface
(`main.py` lines 60-61): `enumerate(docs, 1)` gives the 1-based
position, printed as the label unchanged. -/
def cliSourceEntries (docs : List SourceRecord) : List (Nat × SourceRecord) :=
  (List.enumFrom 1 docs).map (fun p => (p.1, p.2))

/-- Outcome of one run of `cmd_query` (`main.py` lines 44-62):
the printed lines, whether `rag.query` was invoked and with which
question/image arguments, and the error that escaped uncaught (there is
no try/except in `cmd_query`, so a query error propagates). -/
structure CliQueryOutcome where
  output : List String
  queryInvoked : Bool
  questionPassed : Option String
  imagePassed : Option String
  uncaughtError : Option RagError
deriving DecidableEq, Repr

/-- `cmd_query` (`main.py` lines 44-62): refuses when `load_index` finds
no index; otherwise substitutes the default prompt for a missing
question and runs the query, printing answer and numbered sources. -/
def cmd_query (emb : Embedder) (gen : Generator) (persisted : Option VectorStore)
    (argQuestion : Option String) (argImage : Option String) (topK : Nat) :
    CliQueryOutcome :=
  let li := load_index emb.dimension persisted
  if li.1 = false then
    { output := ["Error: No index found. Run \x27ingest\x27 first."]
      queryInvoked := false, questionPassed := none, imagePassed := none
      uncaughtError := none }
  else
    let question := pyOrOpt argQuestion defaultPrompt
    let res := (ragQuery emb gen li.2 (some question) argImage topK).1
    match res with
    | .ok (answer, docs) =>
      { output := ["Retrieving and generating...", "--- Answer ---", answer,
          "--- Retrieved Sources ---"] ++
          (cliSourceEntries docs).map
            (fun p => toString p.1 ++ ". [" ++ p.2.type ++ "] " ++ p.2.source)
        queryInvoked := true, questionPassed := some question
        imagePassed := argImage, uncaughtError := none }
    | .error e =>
      { output := ["Retrieving and generating..."]
        queryInvoked := true, questionPassed := some question
        imagePassed := argImage, uncaughtError := some e }

/-- What the interactive surface displays after the search button. -/
inductive AppDisplay where
  | errorBox (message : String)
  | answerView (answer : String) (entries : List (Nat × SourceRecord))
deriving DecidableEq, Repr

/-- Outcome of one press of the search button in the interactive
surface (`app.py` lines 66-91): what is displayed, the backend calls
performed, whether the temporary query-image file exists afterwards,
whether and with which arguments `rag.query` was invoked, and whether
an error escaped the handler uncaught. -/
structure AppQueryOutcome where
  display : AppDisplay
  calls : List BackendCall
  tmpFileAfter : Bool
  queryInvoked : Bool
  questionPassed : Option String
  imagePassed : Option String
  uncaught : Option RagError
deriving DecidableEq, Repr

/-- The path of the temporary upload file (`app.py` line 74). -/
def tmpQueryPath : String := "tmp_query.png"

/-- `tmp.unlink(missing_ok=True)` in the `finally` block (`app.py`
line 79): runs on both the normal and the exceptional exit of the
query call, and leaves the file absent whatever its state was. -/
def tmpUnlink (_ : Bool) : Bool := false

/-- The search button handler of the interactive surface (`app.py`
lines 66-91).  `question` is the text widget value (possibly empty),
`queryImage` the optional upload.  Mirrors the Python control flow:
refuse when both inputs are falsy; with an image, write the upload to
`tmp_query.png`, query with the question-or-default and that path, and
unlink the file in a `finally`; without one, query with the question;
display the answer with labelled sources, or the error message of any
raised error (the whole call is inside try/except). -/
def appSearchHandler (emb : Embedder) (gen : Generator) (store : VectorStore)
    (question : String) (queryImage : Option String) : AppQueryOutcome :=
  if question = "" ∧ queryImage = none then
    { display := .errorBox "Provide a text question or an image."
      calls := [], tmpFileAfter := false, queryInvoked := false
      questionPassed := none, imagePassed := none, uncaught := none }
  else
    match queryImage with
    | some _upload =>
      let tmpWritten := true
      let q := pyOr question defaultPrompt
      let rq := ragQuery emb gen store (some q) (some tmpQueryPath) 5
      let tmpAfter := tmpUnlink tmpWritten
      match rq.1 with
      | .ok (answer, docs) =>
        { display := .answerView answer (appSourceEntries docs)
          calls := rq.2, tmpFileAfter := tmpAfter, queryInvoked := true
          questionPassed := some q, imagePassed := some tmpQueryPath
          uncaught := none }
      | .error e =>
        { display := .errorBox (errorMessage e)
          calls := rq.2, tmpFileAfter := tmpAfter, queryInvoked := true
          questionPassed := some q, imagePassed := some tmpQueryPath
          uncaught := none }
    | none =>
      let rq := ragQuery emb gen store (some question) none 5
      match rq.1 with
      | .ok (answer, docs) =>
        { display := .answerView answer (appSourceEntries docs)
          calls := rq.2, tmpFileAfter := false, queryInvoked := true
          questionPassed := some question, imagePassed := none
          uncaught := none }
      | .error e =>
        { display := .errorBox (errorMessage e)
          calls := rq.2, tmpFileAfter := false, queryInvoked := true
          questionPassed := some question, imagePassed := none
          uncaught := none }

/-- Outcome of the whole query tab (`app.py` lines 49-91): whether the
missing-index warning is shown, and the handler outcome when the search
button is pressed.  The warning does not gate the button: pressing it
runs the handler whatever `load_index` returned. -/
structure AppTab1Outcome where
  indexWarning : Bool
  result : Option AppQueryOutcome
deriving DecidableEq, Repr

/-- The query tab of the interactive surface (`app.py` lines 49-91). -/
def appTab1 (emb : Embedder) (gen : Generator) (persisted : Option VectorStore)
    (pressed : Bool) (question : String) (queryImage : Option String) :
    AppTab1Outcome :=
  let li := load_index emb.dimension persisted
  { indexWarning := li.1 = false
    result :=
      if pressed then some (appSearchHandler emb gen li.2 question queryImage)
      else none }

/-- One subcommand of the argument parser: its name, the names of its
positional arguments and the names of its option flags. -/
structure SubcommandSpec where
  name : String
  positionalArgs : List String
  optionFlags : List String
deriving DecidableEq, Repr

/-- The subcommand table built by `main` (`main.py` lines 76-97):
`ingest` with `--all`/`--documents`/`--images`, `query` with an
optional positional `question` plus `--image` and `--top-k`, and
`app` with `--port`. -/
def cliSubcommands : List SubcommandSpec :=
  [⟨"ingest", [], ["--all", "--documents", "--images"]⟩,
   ⟨"query", ["question"], ["--image", "--top-k"]⟩,
   ⟨"app", [], ["--port"]⟩]

/-- Default of `--top-k` (`main.py` line 91). -/
def topKDefault : Nat := 5

/-- Default of `--port` (`main.py` line 96). -/
def appPortDefault : Nat := 8501

/-- The argument vector `cmd_app` launches (`main.py` lines 65-73):
the interactive Streamlit surface on the given port. -/
def cmdAppArgv (port : Nat) : List String :=
  ["-m", "streamlit", "run", "app.py",
   "--server.port", toString port, "--server.headless", "true"]

/-- A constant embedder used in concrete witnesses: dimension 2,
fixed text and image vectors. -/
def embConst : Embedder :=
  { dimension := 2
    embedText := fun _ => .ok [1, 0]
    embedImage := fun _ => .ok [0, 1] }

/-- A generator used in concrete witnesses: echoes the question. -/
def genConst : Generator :=
  { generate := fun q _ => .ok ("answer: " ++ q) }

/-- A generator whose every call fails, used to exercise error paths. -/
def genFail : Generator :=
  { generate := fun _ _ => .error .generationFailure }

/-- An embedder whose every call fails, used to exercise error paths. -/
def embFail : Embedder :=
  { dimension := 2
    embedText := fun _ => .error .embeddingFailure
    embedImage := fun _ => .error .embeddingFailure }

/-- A small concrete store used in witnesses. -/
def storeEx : VectorStore :=
  { dimension := 2
    vectors := [[1, 0]]
    records := [⟨"text", "doc1.txt", "The sky is blue."⟩] }

/-- A small concrete ingestion environment used in witnesses: one
readable document of two chunks and one readable image. -/
def envEx : IngestEnv :=
  { readChunks := fun p => if p = "notes.txt" then some ["alpha", "beta"] else none
    readImage := fun p => if p = "red.png" then some "redbytes" else none }

/-- A batch whose second of three items has the wrong dimension. -/
def badBatch : List (List Int × SourceRecord) :=
  [([1, 0], ⟨"text", "a", "x"⟩), ([1], ⟨"text", "b", "y"⟩), ([0, 1], ⟨"text", "c", "z"⟩)]

/-- The error carried by a failed query result, `none` on success:
what escapes a caller that has no try/except around the query. -/
def exceptErrOpt (r : Except RagError (String × List SourceRecord)) : Option RagError :=
  match r with
  | .ok _ => none
  | .error e => some e

/-- Concrete `ingest --all` arguments used in witnesses. -/
def argsEx : IngestArgs := ⟨true, [], []⟩

/-- Concrete documents directory used in witnesses. -/
def ddirEx : List String := ["notes.txt"]

/-- Concrete images directory used in witnesses. -/
def idirEx : List String := ["red.png"]

/-- The store produced by the concrete witness ingestion run. -/
def st6 : VectorStore :=
  match cmd_ingest envEx embConst (some storeEx) argsEx ddirEx idirEx with
  | .ok (s, _, _) => s
  | .error _ => emptyStore 2

/-- Modelled from the spec: `ingest_all` (section 4.3; the ingest
module is not in the visible source) — runs the document ingestion and
then the image ingestion against the configured default directories,
returning the grown store with both counts, or the first error. -/
def ingest_all (env : IngestEnv) (emb : Embedder) (store : VectorStore)
    (documentsDir imagesDir : List String) :
    Except RagError (VectorStore × Nat × Nat) :=
  match ingest_documents env emb store none (some documentsDir) with
  | .error e => .error e
  | .ok (s1, dc) =>
    match ingest_images env emb s1 none (some imagesDir) with
    | .error e => .error e
    | .ok (s2, ic) => .ok (s2, dc, ic)

/-- What the interactive ingestion buttons display (`app.py` lines
30-36 and 101-107): the success message with both counts, or the error
text of a caught exception. -/
inductive AppIngestDisplay where
  | ingestSuccess (docCount imgCount : Nat)
  | ingestError (message : String)
deriving DecidableEq, Repr

/-- Outcome of one press of an ingestion button in the interactive
surface: what is displayed, and whether an error escaped uncaught. -/
structure AppIngestOutcome where
  display : AppIngestDisplay
  uncaught : Option RagError
deriving DecidableEq, Repr

/-- The ingestion button handler of the interactive surface (`app.py`
lines 30-36, duplicated at 101-107): `ingest_all()` inside try/except —
a success message on return, the displayed error message on a raised
error, and nothing escapes the handler. -/
def appIngestHandler (env : IngestEnv) (emb : Embedder) (store : VectorStore)
    (documentsDir imagesDir : List String) : AppIngestOutcome :=
  match ingest_all env emb store documentsDir imagesDir with
  | .ok (_, dc, ic) => { display := .ingestSuccess dc ic, uncaught := none }
  | .error e => { display := .ingestError (errorMessage e), uncaught := none }

/-- An embedder whose backend is down: every call fails with the
batch-aborting backend error, used to exercise ingestion error paths. -/
def embDown : Embedder :=
  { dimension := 2
    embedText := fun _ => .error .ingestBackendError
    embedImage := fun _ => .error .ingestBackendError }

/-- Label at index `i` of the enumerate-then-offset rendering: the
entry at 0-based index `i` of `enumerate` starting at `n`, with `m`
added to the counter, is `n + i + m`. -/
lemma enumFrom_label (m : Nat) : ∀ (n i : Nat) (l : List SourceRecord), i < l.length →
    ((List.enumFrom n l).map (fun p => p.1 + m)).getD i 0 = n + i + m := by
  intro n i l
  induction l generalizing n i with
  | nil => intro h; simp at h
  | cons a t ih =>
    intro h
    cases i with
    | zero => simp [List.enumFrom]
    | succ j =>
      have hj : j < t.length := Nat.lt_of_succ_lt_succ (by simpa using h)
      have h2 := ih (n + 1) j hj
      simp only [List.enumFrom, List.map, List.getD_cons_succ]
      rw [h2]
      omega

/-- C10: in the interactive surface the source at 1-based position
`i + 1` (0-based index `i`) is labelled `(i + 1) + 1` — labels start at
2 — while the command surface labels it `i + 1`. -/
theorem c10_source_labels_off_by_one (docs : List SourceRecord) (i : Nat)
    (h : i < docs.length) :
    ((appSourceEntries docs).map (fun p => p.1)).getD i 0 = (i + 1) + 1 ∧
    ((cliSourceEntries docs).map (fun p => p.1)).getD i 0 = i + 1 := by
  constructor
  · have h1 := enumFrom_label 1 1 i docs h
    have he : (i + 1) + 1 = 1 + i + 1 := by omega
    rw [he]
    simpa only [appSourceEntries, List.map_map] using h1
  · have h0 := enumFrom_label 0 1 i docs h
    have he : i + 1 = 1 + i + 0 := by omega
    rw [he]
    simpa only [cliSourceEntries, List.map_map] using h0

/-- Witness for C10 at a concrete document list and position. -/
theorem c10_source_labels_off_by_one_witness :
    0 < [SourceRecord.mk "text" "a" "x"].length ∧
    ((appSourceEntries [SourceRecord.mk "text" "a" "x"]).map (fun p => p.1)).getD 0 0 = 2 ∧
    ((cliSourceEntries [SourceRecord.mk "text" "a" "x"]).map (fun p => p.1)).getD 0 0 = 1 :=
  ⟨by decide,
   (c10_source_labels_off_by_one [SourceRecord.mk "text" "a" "x"] 0 (by decide)).1,
   (c10_source_labels_off_by_one [SourceRecord.mk "text" "a" "x"] 0 (by decide)).2⟩

/-- C1: a query with neither a question nor an image fails with
`EmptyQuery` before any backend call, and the interactive surface
refuses to invoke `query` at all when both inputs are absent (no
backend call is made there either). -/
theorem c1_empty_query_refused (emb : Embedder) (gen : Generator) (store : VectorStore)
    (k : Nat) (question : String) (queryImage : Option String)
    (h : question = "" ∧ queryImage = none) :
    ragQuery emb gen store none none k = (.error .emptyQuery, []) ∧
    (appSearchHandler emb gen store question queryImage).queryInvoked = false ∧
    (appSearchHandler emb gen store question queryImage).calls = [] := by
  obtain ⟨h1, h2⟩ := h
  subst h1
  subst h2
  exact ⟨rfl, rfl, rfl⟩

/-- Witness for C1 at the concrete empty inputs. -/
theorem c1_empty_query_refused_witness :
    ragQuery embConst genConst storeEx none none 5 = (.error .emptyQuery, []) ∧
    (appSearchHandler embConst genConst storeEx "" none).queryInvoked = false ∧
    (appSearchHandler embConst genConst storeEx "" none).calls = [] :=
  c1_empty_query_refused embConst genConst storeEx 5 "" none ⟨rfl, rfl⟩

/-- C5: `add_batch` is atomic — when it reports a failure, the store it
leaves behind has exactly the count it had before the call. -/
theorem c5_add_batch_atomic (store : VectorStore)
    (pairs : List (List Int × SourceRecord)) (e : RagError)
    (h : (add_batch store pairs).2 = some e) :
    (add_batch store pairs).1.count = store.count := by
  unfold add_batch at h ⊢
  cases hgo : addBatchGo store pairs with
  | ok s => rw [hgo] at h; simp at h
  | error e2 => rfl

/-- Witness for C5: a batch failing on item 2 of 3 leaves the count
unchanged. -/
theorem c5_add_batch_atomic_witness :
    (add_batch storeEx badBatch).2 = some RagError.dimensionMismatch ∧
    (add_batch storeEx badBatch).1.count = storeEx.count :=
  ⟨by decide, c5_add_batch_atomic storeEx badBatch RagError.dimensionMismatch (by decide)⟩

/-- C8: the command surface exposes the `ingest` subcommand (with the
all/documents/images selectors), the `query` subcommand (optional
question, image path, configurable result count defaulting to 5) and
the `app` subcommand launching the interactive Streamlit surface. -/
theorem c8_command_surface :
    cliSubcommands.map (fun c => c.name) = ["ingest", "query", "app"] ∧
    SubcommandSpec.mk "ingest" [] ["--all", "--documents", "--images"] ∈ cliSubcommands ∧
    SubcommandSpec.mk "query" ["question"] ["--image", "--top-k"] ∈ cliSubcommands ∧
    SubcommandSpec.mk "app" [] ["--port"] ∈ cliSubcommands ∧
    topKDefault = 5 ∧
    "streamlit" ∈ cmdAppArgv appPortDefault := by
  decide

/-- C9: after a search with an uploaded image, the temporary file
`tmp_query.png` never survives the handler — the `finally` unlink runs
on the normal and the exceptional exit alike. -/
theorem c9_tmp_file_deleted (emb : Embedder) (gen : Generator) (store : VectorStore)
    (question : String) (i : String) :
    (appSearchHandler emb gen store question (some i)).tmpFileAfter = false := by
  simp only [appSearchHandler]
  split
  · rfl
  · split <;> rfl

/-- C2 counterexample: on a fresh environment `load_index` returns
false and the interactive surface shows the missing-index warning, yet
pressing the search button with a question still invokes `query` — the
interactive caller does not refuse invocation. -/
theorem c2_app_invokes_query_after_false :
    (load_index embConst.dimension none).1 = false ∧
    (appTab1 embConst genConst none true "hello" none).indexWarning = true ∧
    ((appTab1 embConst genConst none true "hello" none).result.map
      (fun o => o.queryInvoked)) = some true := by
  refine ⟨rfl, by decide, by decide⟩

/-- C2 (amended): `load_index` reports false on a fresh environment
(a normal state); the command surface then refuses to invoke `query`
and instructs the user to ingest first, while the interactive surface
shows a warning instructing the user but does not gate the search
button on it. -/
theorem c2_load_index_false_handling (emb : Embedder) (gen : Generator)
    (argQ : Option String) (argImg : Option String) (k : Nat)
    (pressed : Bool) (question : String) (queryImage : Option String) :
    (load_index emb.dimension none).1 = false ∧
    (cmd_query emb gen none argQ argImg k).queryInvoked = false ∧
    (cmd_query emb gen none argQ argImg k).output =
      ["Error: No index found. Run \x27ingest\x27 first."] ∧
    (appTab1 emb gen none pressed question queryImage).indexWarning = true := by
  exact ⟨rfl, rfl, rfl, rfl⟩

/-- C3 counterexample: with a generation backend that fails, the
command surface's `cmd_query` lets the error escape uncaught — there is
no try/except in `main.py`'s `cmd_query` — contradicting the claim that
both surfaces report every query error without crashing. -/
theorem c3_cli_error_escapes :
    (cmd_query embConst genFail (some storeEx) (some "why") none 5).uncaughtError =
      some RagError.generationFailure := by
  decide

/-- The `ingest --all` run of the command surface performs exactly the
`ingest_all` composition (load the persisted store, then both default
directories), so whatever `ingest_all` raises is what `cmd_ingest`
returns. -/
lemma cmd_ingest_all_eq (env : IngestEnv) (emb : Embedder) (istore : VectorStore)
    (ddir idir : List String) :
    cmd_ingest env emb (some istore) ⟨true, [], []⟩ ddir idir =
      ingest_all env emb istore ddir idir := by
  unfold cmd_ingest ingest_all
  rfl

/-- C3 (amended): the interactive surface catches every error raised
during a query or an ingestion and displays its message (nothing
escapes either handler), while the command surface handles only the
missing-index case and otherwise propagates query and ingestion errors
uncaught. -/
theorem c3_app_catches_cli_propagates (emb : Embedder) (gen : Generator)
    (store istore : VectorStore) (question : String) (img : Option String)
    (argQ : Option String) (argImg : Option String) (k : Nat) (e e2 : RagError)
    (env : IngestEnv) (ddir idir : List String)
    (hq : ¬(question = "" ∧ img = none))
    (he : (ragQuery emb gen store (some (pyOr question defaultPrompt))
        (img.map (fun _ => tmpQueryPath)) 5).1 = .error e)
    (hi : ingest_all env emb istore ddir idir = .error e2) :
    (appSearchHandler emb gen store question img).uncaught = none ∧
    (appSearchHandler emb gen store question img).display =
      .errorBox (errorMessage e) ∧
    (cmd_query emb gen (some store) argQ argImg k).uncaughtError =
      exceptErrOpt (ragQuery emb gen store (some (pyOrOpt argQ defaultPrompt)) argImg k).1 ∧
    (appIngestHandler env emb istore ddir idir).uncaught = none ∧
    (appIngestHandler env emb istore ddir idir).display =
      .ingestError (errorMessage e2) ∧
    cmd_ingest env emb (some istore) ⟨true, [], []⟩ ddir idir = .error e2 := by
  refine ⟨?_, ?_, ?_, ?_, ?_, ?_⟩
  · cases img with
    | some i =>
      simp only [appSearchHandler]
      rw [if_neg (by simp)]
      split <;> rfl
    | none =>
      have hne : ¬ question = "" := fun hc => hq ⟨hc, rfl⟩
      simp only [appSearchHandler]
      rw [if_neg (by simp [hne])]
      split <;> rfl
  · cases img with
    | some i =>
      have he2 : (ragQuery emb gen store (some (pyOr question defaultPrompt))
          (some tmpQueryPath) 5).1 = .error e := he
      simp only [appSearchHandler]
      rw [if_neg (by simp)]
      rw [he2]
    | none =>
      have hne : ¬ question = "" := fun hc => hq ⟨hc, rfl⟩
      have hpy : pyOr question defaultPrompt = question := by simp [pyOr, hne]
      have he2 : (ragQuery emb gen store (some question) none 5).1 = .error e := by
        rw [hpy] at he
        exact he
      simp only [appSearchHandler]
      rw [if_neg (by simp [hne])]
      rw [he2]
  · simp only [cmd_query, load_index]
    rw [if_neg (by simp)]
    split <;> simp_all [exceptErrOpt]
  · unfold appIngestHandler
    split <;> rfl
  · simp [appIngestHandler, hi]
  · rw [cmd_ingest_all_eq]
    exact hi

/-- Witness for C3 (amended) at a down embedding backend, a nonempty
question with no image, and a concrete ingestion environment. -/
theorem c3_app_catches_cli_propagates_witness :
    (appSearchHandler embDown genConst storeEx "q" none).uncaught = none ∧
    (appSearchHandler embDown genConst storeEx "q" none).display =
      .errorBox (errorMessage RagError.ingestBackendError) ∧
    (cmd_query embDown genConst (some storeEx) none none 5).uncaughtError =
      exceptErrOpt (ragQuery embDown genConst storeEx
        (some (pyOrOpt none defaultPrompt)) none 5).1 ∧
    (appIngestHandler envEx embDown storeEx ddirEx idirEx).uncaught = none ∧
    (appIngestHandler envEx embDown storeEx ddirEx idirEx).display =
      .ingestError (errorMessage RagError.ingestBackendError) ∧
    cmd_ingest envEx embDown (some storeEx) ⟨true, [], []⟩ ddirEx idirEx =
      .error RagError.ingestBackendError :=
  c3_app_catches_cli_propagates embDown genConst storeEx storeEx "q" none none none 5
    RagError.ingestBackendError RagError.ingestBackendError envEx ddirEx idirEx
    (by decide) (by rfl) (by rfl)

/-- C4: with both a question and an image present, the image is the
single search modality — the interactive surface passes the temporary
image path as the embedding input and the question through to the
query — and the backend trace embeds exactly the image (never the
text), with any generation call carrying the caller's question. -/
theorem c4_image_is_search_modality (emb : Embedder) (gen : Generator)
    (store : VectorStore) (q i : String) (k : Nat) (hq : q ≠ "") :
    (appSearchHandler emb gen store q (some i)).imagePassed = some tmpQueryPath ∧
    (appSearchHandler emb gen store q (some i)).questionPassed = some q ∧
    ((ragQuery emb gen store (some q) (some i) k).2 = [.embedImageCall i] ∨
     (ragQuery emb gen store (some q) (some i) k).2 =
       [.embedImageCall i, .generateCall q]) := by
  have hpy : pyOr q defaultPrompt = q := by simp [pyOr, hq]
  refine ⟨?_, ?_, ?_⟩
  · simp only [appSearchHandler]
    rw [if_neg (by simp)]
    split <;> rfl
  · simp only [appSearchHandler]
    rw [if_neg (by simp)]
    split <;> simp [hpy]
  · simp only [ragQuery]
    cases hie : emb.embedImage i with
    | error e => simp [hie]
    | ok v =>
      cases hg : gen.generate q (assembleContext (searchStore store v k)) with
      | error e => simp [hie, hg]
      | ok a => simp [hie, hg]

/-- Witness for C4 at a concrete question and image. -/
theorem c4_image_is_search_modality_witness :
    (appSearchHandler embConst genConst storeEx "find" (some "img.png")).imagePassed =
      some tmpQueryPath ∧
    (appSearchHandler embConst genConst storeEx "find" (some "img.png")).questionPassed =
      some "find" ∧
    ((ragQuery embConst genConst storeEx (some "find") (some "img.png") 5).2 =
       [.embedImageCall "img.png"] ∨
     (ragQuery embConst genConst storeEx (some "find") (some "img.png") 5).2 =
       [.embedImageCall "img.png", .generateCall "find"]) :=
  c4_image_is_search_modality embConst genConst storeEx "find" "img.png" 5 (by decide)

/-- The Python string fallback never yields the empty string when the
fallback itself is nonempty. -/
lemma pyOr_ne_empty (s d : String) (hd : d ≠ "") : pyOr s d ≠ "" := by
  unfold pyOr
  split
  · exact hd
  · next h2 => exact h2

/-- C7: whenever either surface invokes `query`, the question it passes
is the caller's question when one was supplied and the default prompt
otherwise — never the empty string. -/
theorem c7_default_prompt_substituted (emb : Embedder) (gen : Generator)
    (store : VectorStore) (question : String) (img : Option String)
    (argQ : Option String) (argImg : Option String) (k : Nat)
    (h : ¬(question = "" ∧ img = none)) :
    (appSearchHandler emb gen store question img).questionPassed =
      some (pyOr question defaultPrompt) ∧
    (cmd_query emb gen (some store) argQ argImg k).questionPassed =
      some (pyOrOpt argQ defaultPrompt) ∧
    pyOr question defaultPrompt ≠ "" ∧
    pyOrOpt argQ defaultPrompt ≠ "" := by
  refine ⟨?_, ?_, pyOr_ne_empty _ _ (by decide), pyOr_ne_empty _ _ (by decide)⟩
  · cases img with
    | some i =>
      simp only [appSearchHandler]
      rw [if_neg (by simp)]
      split <;> rfl
    | none =>
      have hne : ¬ question = "" := fun hc => h ⟨hc, rfl⟩
      have hpy : pyOr question defaultPrompt = question := by simp [pyOr, hne]
      simp only [appSearchHandler]
      rw [if_neg (by simp [hne])]
      split <;> simp [hpy]
  · simp only [cmd_query, load_index]
    rw [if_neg (by simp)]
    split <;> rfl

/-- Witness for C7 at a concrete nonempty question with no image and a
CLI call with no question argument. -/
theorem c7_default_prompt_substituted_witness :
    (appSearchHandler embConst genConst storeEx "hi" none).questionPassed =
      some (pyOr "hi" defaultPrompt) ∧
    (cmd_query embConst genConst (some storeEx) none none 5).questionPassed =
      some (pyOrOpt none defaultPrompt) ∧
    pyOr "hi" defaultPrompt ≠ "" ∧
    pyOrOpt none defaultPrompt ≠ "" :=
  c7_default_prompt_substituted embConst genConst storeEx "hi" none none none 5 (by decide)

/-- A successful `ingest_documents` run appends: the result's records
are the input records followed by exactly `n` new ones. -/
lemma ingest_documents_appends (env : IngestEnv) (emb : Embedder) (store : VectorStore)
    (p d : Option (List String)) (st : VectorStore) (n : Nat)
    (h : ingest_documents env emb store p d = .ok (st, n)) :
    ∃ t, st.records = store.records ++ t ∧ t.length = n := by
  unfold ingest_documents at h
  cases hg : gatherDocPairs env emb (p.getD [] ++ d.getD []) with
  | error e => rw [hg] at h; simp [Except.map] at h
  | ok ps =>
    rw [hg] at h
    simp only [Except.map, Except.ok.injEq, Prod.mk.injEq] at h
    obtain ⟨hst, hn⟩ := h
    exact ⟨ps.map (fun q => q.2), by rw [← hst]; rfl, by rw [← hn]; simp⟩

/-- A successful `ingest_images` run appends likewise. -/
lemma ingest_images_appends (env : IngestEnv) (emb : Embedder) (store : VectorStore)
    (p d : Option (List String)) (st : VectorStore) (n : Nat)
    (h : ingest_images env emb store p d = .ok (st, n)) :
    ∃ t, st.records = store.records ++ t ∧ t.length = n := by
  unfold ingest_images at h
  cases hg : gatherImagePairs env emb (p.getD [] ++ d.getD []) with
  | error e => rw [hg] at h; simp [Except.map] at h
  | ok ps =>
    rw [hg] at h
    simp only [Except.map, Except.ok.injEq, Prod.mk.injEq] at h
    obtain ⟨hst, hn⟩ := h
    exact ⟨ps.map (fun q => q.2), by rw [← hst]; rfl, by rw [← hn]; simp⟩

/-- An ingestion step guarded by an if (run the ingest call, or keep
the store with a zero count) appends in either branch. -/
lemma if_step_appends (c : Prop) [Decidable c] (store : VectorStore)
    (f : Except RagError (VectorStore × Nat))
    (hf : ∀ s m, f = .ok (s, m) → ∃ t, s.records = store.records ++ t ∧ t.length = m)
    (s1 : VectorStore) (m : Nat)
    (h : (if c then f else .ok (store, 0)) = .ok (s1, m)) :
    ∃ t, s1.records = store.records ++ t ∧ t.length = m := by
  split at h
  · exact hf s1 m h
  · simp only [Except.ok.injEq, Prod.mk.injEq] at h
    exact ⟨[], by simp [← h.1], by simp [← h.2]⟩

/-- C6: `cmd_ingest` loads the persisted index before ingesting, and a
successful run grows it incrementally — the previously saved records
remain as the leading prefix of the result, and the count grows by
exactly the reported number of added chunks and images. -/
theorem c6_ingest_appends_to_loaded_index (env : IngestEnv) (emb : Embedder)
    (persisted : Option VectorStore) (args : IngestArgs)
    (ddir idir : List String) (st : VectorStore) (dc ic : Nat)
    (h : cmd_ingest env emb persisted args ddir idir = .ok (st, dc, ic)) :
    st.records.take (storeLoad emb.dimension persisted).records.length =
      (storeLoad emb.dimension persisted).records ∧
    st.count = (storeLoad emb.dimension persisted).count + (dc + ic) := by
  unfold cmd_ingest at h
  split at h
  · simp at h
  · next s1 m1 heq1 =>
    split at h
    · simp at h
    · next s2 m2 heq2 =>
      simp only [Except.ok.injEq, Prod.mk.injEq] at h
      obtain ⟨hs, hdc, hic⟩ := h
      obtain ⟨t1, ht1, hl1⟩ :=
        if_step_appends _ _ _
          (fun s m hh => ingest_documents_appends env emb _ _ _ s m hh) s1 m1 heq1
      obtain ⟨t2, ht2, hl2⟩ :=
        if_step_appends _ _ _
          (fun s m hh => ingest_images_appends env emb _ _ _ s m hh) s2 m2 heq2
      subst hs hdc hic
      constructor
      · rw [ht2, ht1, List.append_assoc]
        exact List.take_left _ _
      · simp only [VectorStore.count, ht2, ht1, List.append_assoc,
          List.length_append, hl1, hl2]

/-- Witness for C6: a concrete `ingest --all` run over one two-chunk
document and one image, on top of a one-record persisted store. -/
theorem c6_ingest_appends_to_loaded_index_witness :
    st6.records.take (storeLoad embConst.dimension (some storeEx)).records.length =
      (storeLoad embConst.dimension (some storeEx)).records ∧
    st6.count = (storeLoad embConst.dimension (some storeEx)).count + (2 + 1) :=
  c6_ingest_appends_to_loaded_index envEx embConst (some storeEx) argsEx
    ddirEx idirEx st6 2 1 (by rfl)
